import Mathlib

/-!
Shallow embedding of `src/openvpn/mtu.c` (OpenVPN MTU accounting engine).

C `int` / `unsigned int` / `size_t` quantities are modelled as mathematical
integers (`Int`): none of the verified properties depend on machine-width
wraparound, and all quantities lie in the small nonnegative regime in which
the C arithmetic is exact.

External collaborators that live in this repository but outside the provided
source (the macros of `mtu.h`, `constrain_int` of `integer.h`,
`init_key_type` of `crypto.c`, `buf_rmtail` of `buffer.c`, the protocol
predicates of `socket.h`) are modelled from the specification; each such
definition carries a doc comment starting `Modelled from the spec:`.
The crypto overhead calculator (`calculate_crypto_overhead`) and the cipher
mode query are kept as explicit parameters, following the specification's
design note that such collaborators be threaded through as plain arguments.
-/

namespace Mtu

/-- The `struct frame` record of the frame model: static baseline `link_mtu`,
working value `link_mtu_dynamic`, and the four categorized overhead fields. -/
structure Frame where
  link_mtu : Int
  link_mtu_dynamic : Int
  extra_frame : Int
  extra_buffer : Int
  extra_tun : Int
  extra_link : Int
deriving DecidableEq

/-- Modelled from the spec: the minimum tunnel-side MTU constant
(`TUN_MTU_MIN` of `mtu.h`, not under `src/`); the spec fixes only that a
minimum constant exists, the value matches the upstream header. -/
def TUN_MTU_MIN : Int := 100

/-- Modelled from the spec: the link-to-tun delta, "derived from current
extra_* fields" (`TUN_LINK_DELTA` of `mtu.h`, not under `src/`). -/
def TUN_LINK_DELTA (f : Frame) : Int := f.extra_frame + f.extra_tun

/-- Modelled from the spec: the tun-facing MTU derived from `link_mtu` by
subtracting the link/tun delta (`TUN_MTU_SIZE` of `mtu.h`, not under `src/`). -/
def TUN_MTU_SIZE (f : Frame) : Int := f.link_mtu - TUN_LINK_DELTA f

/-- Modelled from the spec: the ceiling of the dynamic MTU, computed from
`link_mtu` (`EXPANDED_SIZE` of `mtu.h`, not under `src/`). -/
def EXPANDED_SIZE (f : Frame) : Int := f.link_mtu

/-- Modelled from the spec: the floor of the dynamic MTU, computed from the
minimum constant and the extra_* fields (`EXPANDED_SIZE_MIN` of `mtu.h`,
not under `src/`). -/
def EXPANDED_SIZE_MIN (f : Frame) : Int := TUN_MTU_MIN + TUN_LINK_DELTA f

/-- Modelled from the spec: clamp `x` into `[lo, hi]` (`constrain_int` of
`integer.h`, not under `src/`); when the interval is empty the floor wins,
matching the upstream helper. -/
def constrain_int (x lo hi : Int) : Int :=
  if lo > hi then lo
  else if x < lo then lo
  else if x > hi then hi
  else x

/-- The two flag bits accepted by `frame_set_mtu_dynamic`
(`SET_MTU_TUN`, `SET_MTU_UPPER_BOUND`). -/
structure SetMtuFlags where
  set_mtu_tun : Bool
  set_mtu_upper_bound : Bool
deriving DecidableEq

/-- `frame_set_mtu_dynamic` (mtu.c): asserts `mtu >= 0` (modelled as `none`
on assertion failure), adds the link/tun delta under `SET_MTU_TUN`, and
stores the clamped value unless `SET_MTU_UPPER_BOUND` is set and the
adjusted mtu is not below the current dynamic value. -/
def frame_set_mtu_dynamic (frame : Frame) (mtu : Int) (flags : SetMtuFlags) :
    Option Frame :=
  if mtu < 0 then none
  else
    let mtu := if flags.set_mtu_tun then mtu + TUN_LINK_DELTA frame else mtu
    if ¬ flags.set_mtu_upper_bound ∨ mtu < frame.link_mtu_dynamic then
      some { frame with
             link_mtu_dynamic :=
               constrain_int mtu (EXPANDED_SIZE_MIN frame) (EXPANDED_SIZE frame) }
    else
      some frame

/-- `frame_subtract_extra` (mtu.c): move `src.extra_frame` octets out of
`frame.extra_frame` and into `frame.extra_tun`. The C source takes `src`
through a `const` pointer and only reads it; the embedding is accordingly a
pure function of the destination frame and the source frame. -/
def frame_subtract_extra (frame : Frame) (src : Frame) : Frame :=
  { frame with
    extra_frame := frame.extra_frame - src.extra_frame
    extra_tun := frame.extra_tun + src.extra_frame }

/-- Failure modes of `frame_finalize`: an `ASSERT` contract violation
(both or neither MTU defined), or the fatal "MTU is too small" diagnostic,
which names the offending derived tun MTU and the minimum. -/
inductive FinalizeError where
  | assertFailure : FinalizeError
  | mtuTooSmall (tun_mtu_size : Int) (minimum : Int) : FinalizeError
deriving DecidableEq

/-- The tail of `frame_finalize` after `link_mtu` has been assigned: the
fatal minimum check on the derived tun MTU, then the initialization
`link_mtu_dynamic := link_mtu`. -/
def finalize_check (f : Frame) : Except FinalizeError Frame :=
  if TUN_MTU_SIZE f < TUN_MTU_MIN then
    .error (.mtuTooSmall (TUN_MTU_SIZE f) TUN_MTU_MIN)
  else
    .ok { f with link_mtu_dynamic := f.link_mtu }

/-- `frame_finalize` (mtu.c): derive `link_mtu` from exactly one of the
configured link/tun MTUs (the `ASSERT`s modelled as the contract-violation
error), fail fatally if the derived tun MTU is below `TUN_MTU_MIN`, and on
success initialize `link_mtu_dynamic := link_mtu`. -/
def frame_finalize (frame : Frame) (link_mtu_defined : Bool) (link_mtu : Int)
    (tun_mtu_defined : Bool) (tun_mtu : Int) : Except FinalizeError Frame :=
  if tun_mtu_defined then
    if link_mtu_defined then .error .assertFailure
    else finalize_check { frame with link_mtu := tun_mtu + TUN_LINK_DELTA frame }
  else
    if ¬ link_mtu_defined then .error .assertFailure
    else finalize_check { frame with link_mtu := link_mtu }

/-- Modelled from the spec: outer transport kind; the spec distinguishes
datagram-oriented and stream-oriented transports (`proto_t` of `socket.h`,
not under `src/`; the stream kind has server/client/generic variants). -/
inductive Proto where
  | udp : Proto
  | tcp_server : Proto
  | tcp_client : Proto
  | tcp : Proto
deriving DecidableEq

/-- Modelled from the spec: true exactly for the datagram-oriented transport
(`proto_is_udp` of `socket.h`, not under `src/`). -/
def proto_is_udp (p : Proto) : Bool := p = Proto.udp

/-- Modelled from the spec: true exactly for the stream-oriented transports
(`proto_is_tcp` of `socket.h`, not under `src/`). -/
def proto_is_tcp (p : Proto) : Bool :=
  p = Proto.tcp_server ∨ p = Proto.tcp_client ∨ p = Proto.tcp

/-- Compression algorithm selector (`comp.alg` of the options record); per
the spec's design note, the conditionally compiled compression support is
modelled as a runtime capability value. -/
inductive CompAlg where
  | undef : CompAlg
  | stub : CompAlg
  | lzo : CompAlg
  | lz4 : CompAlg
  | lz4v2 : CompAlg
deriving DecidableEq

/-- The per-connection options consumed by mtu.c (`options->ce`):
proxy presence, transport kind, configured tunnel MTU, fragmentation. -/
structure ConnectionEntry where
  socks_proxy_server : Bool
  proto : Proto
  tun_mtu : Int
  fragment : Int
deriving DecidableEq

/-- The configuration options consumed by mtu.c (`struct options`), with the
fields the shown source reads. -/
structure Options where
  tls_server : Bool
  tls_client : Bool
  shared_secret_file : Bool
  use_peer_id : Bool
  replay : Bool
  ciphername : String
  authname : String
  comp_alg : CompAlg
  ce : ConnectionEntry
deriving DecidableEq

/-- The key/cipher descriptor (`struct key_type`) as consumed here: the
cipher and auth identifiers it was initialized from. -/
structure KeyType where
  cipher : String
  digest : String
deriving DecidableEq

/-- The external crypto collaborators, threaded through as explicit
arguments per the spec's design note: the cipher-mode query
(`cipher_kt_mode_ofb_cfb`) and the crypto overhead calculator
(`calculate_crypto_overhead(kt, packet_id, packet_id_long_form,
payload_size, occ)`), both outside this core. -/
structure CryptoEnv where
  cipher_kt_mode_ofb_cfb : String → Bool
  calculate_crypto_overhead : KeyType → Bool → Bool → Int → Bool → Int

/-- `frame_calculate_protocol_header_size` (mtu.c): sum of socks-proxy bytes
(UDP only), TCP stream length-prefix bytes, opcode/peer-id bytes (TLS mode
only), and the delegated crypto overhead. -/
def frame_calculate_protocol_header_size (env : CryptoEnv) (kt : KeyType)
    (options : Options) (payload_size : Int) (occ : Bool) : Int :=
  let tlsmode := options.tls_server || options.tls_client
  let header_size : Int :=
    (if options.ce.socks_proxy_server && proto_is_udp options.ce.proto then 10 else 0)
    + (if proto_is_tcp options.ce.proto then 2 else 0)
    + (if tlsmode then (if options.use_peer_id then 4 else 1) else 0)
  let packet_id := options.replay
  let packet_id_long_form := !tlsmode || env.cipher_kt_mode_ofb_cfb kt.cipher
  header_size
    + env.calculate_crypto_overhead kt packet_id packet_id_long_form payload_size occ

/-- `frame_calculate_payload_overhead` (mtu.c): `extra_tun` if requested, a
1-byte header for the v1/stub compression schemes, and a 4-byte fragment
header when fragmentation is configured (both conditionally compiled
features modelled as always-present runtime capabilities, per the spec). -/
def frame_calculate_payload_overhead (frame : Frame) (options : Options)
    (extra_tun : Bool) : Int :=
  (if extra_tun then frame.extra_tun else 0)
  + (if options.comp_alg = CompAlg.lz4 ∨ options.comp_alg = CompAlg.stub
        ∨ options.comp_alg = CompAlg.lzo then 1 else 0)
  + (if options.ce.fragment ≠ 0 then 4 else 0)

/-- `frame_calculate_payload_size` (mtu.c): the tunnel MTU plus the full
payload overhead including `extra_tun`. -/
def frame_calculate_payload_size (frame : Frame) (options : Options) : Int :=
  options.ce.tun_mtu + frame_calculate_payload_overhead frame options true

/-- Modelled from the spec: `init_key_type(&kt, ciphername, authname, true,
false)` of `crypto.c` (not under `src/`) "resolves a key/cipher descriptor
for overhead purposes only"; the descriptor records the identifiers it was
initialized from (the tls-mode and warn arguments do not affect the
descriptor's overhead identity). -/
def init_key_type (ciphername authname : String) : KeyType :=
  ⟨ciphername, authname⟩

/-- `calc_options_string_link_mtu` (mtu.c): the advertised link MTU; plain
payload size without TLS/secret, otherwise payload plus protocol header
overhead, with the unresolvable "BF-CBC" cipher replaced by "none" plus a
manual 16-byte (64-bit block + 64-bit IV) addition. -/
def calc_options_string_link_mtu (env : CryptoEnv) (o : Options)
    (frame : Frame) : Int :=
  let payload := frame_calculate_payload_size frame o
  if !o.tls_client && !o.tls_server && !o.shared_secret_file then
    payload
  else
    let withBf := o.ciphername = "BF-CBC"
    let ciphername := if withBf then "none" else o.ciphername
    let overhead : Int := if withBf then 64 / 8 + 64 / 8 else 0
    let occ_kt := init_key_type ciphername o.authname
    let overhead := overhead + frame_calculate_protocol_header_size env occ_kt o 0 true
    payload + overhead

/-- OS socket-option value `IP_PMTUDISC_DONT` (never send DF), on a platform
where the path-MTU-discovery constants are defined (Linux value). -/
def IP_PMTUDISC_DONT : Int := 0

/-- OS socket-option value `IP_PMTUDISC_WANT` (use per-route hints). -/
def IP_PMTUDISC_WANT : Int := 1

/-- OS socket-option value `IP_PMTUDISC_DO` (always DF). -/
def IP_PMTUDISC_DO : Int := 2

/-- The fatal diagnostic emitted by `translate_mtu_discover_type_name` for an
unrecognized mode name, with the offending name substituted for `%s`. -/
def mtu_disc_invalid_msg (name : String) : String :=
  "invalid --mtu-disc type: '" ++ name ++ "' -- valid types are 'yes', 'maybe', or 'no'"

/-- `translate_mtu_discover_type_name` (mtu.c), on a platform where the
`IP_PMTUDISC_*` constants are defined: maps the three valid mode names to
the OS values and fails fatally (modelled as `Except.error` carrying the
diagnostic) on anything else. -/
def translate_mtu_discover_type_name (name : String) : Except String Int :=
  if name = "yes" then .ok IP_PMTUDISC_DO
  else if name = "maybe" then .ok IP_PMTUDISC_WANT
  else if name = "no" then .ok IP_PMTUDISC_DONT
  else .error (mtu_disc_invalid_msg name)

/-- The structured error metadata of one error-queue entry
(`struct sock_extended_err`, fields read by mtu.c). -/
structure SockExtendedErr where
  ee_errno : Int
  ee_info : Int
deriving DecidableEq

/-- OS errno value `ETIMEDOUT` (Linux). -/
def ETIMEDOUT : Int := 110

/-- OS errno value `EMSGSIZE` (Linux). -/
def EMSGSIZE : Int := 90

/-- OS errno value `ECONNREFUSED` (Linux). -/
def ECONNREFUSED : Int := 111

/-- OS errno value `EPROTO` (Linux). -/
def EPROTO : Int := 71

/-- OS errno value `EHOSTUNREACH` (Linux). -/
def EHOSTUNREACH : Int := 113

/-- OS errno value `ENETUNREACH` (Linux). -/
def ENETUNREACH : Int := 101

/-- OS errno value `EACCES` (Linux). -/
def EACCES : Int := 13

/-- One control message of an error-queue entry, as mtu.c distinguishes
them: a `SOL_IP`/`IP_RECVERR` message carrying the structured error, any
other `SOL_IP` message (traced as `CMSG=<type>|`), or a message at another
level (skipped). -/
inductive Cmsg where
  | ip_recverr (e : SockExtendedErr) : Cmsg
  | sol_ip_other (cmsg_type : Int) : Cmsg
  | other_level : Cmsg
deriving DecidableEq

/-- The cmsg scan of one received entry (the `for (cmsg = CMSG_FIRSTHDR...)`
loop): appends `CMSG=<type>|` for each other `SOL_IP` message in order and
keeps the last `IP_RECVERR` payload seen. -/
def scan_cmsgs (cmsgs : List Cmsg) : String × Option SockExtendedErr :=
  cmsgs.foldl
    (fun acc c =>
      match c with
      | .ip_recverr e => (acc.1, some e)
      | .sol_ip_other t => (acc.1 ++ "CMSG=" ++ toString t ++ "|", acc.2)
      | .other_level => acc)
    ("", none)

/-- The trace element of the `switch (e->ee_errno)` classification. -/
def ee_errno_tag (e : SockExtendedErr) : String :=
  if e.ee_errno = ETIMEDOUT then "ETIMEDOUT|"
  else if e.ee_errno = EMSGSIZE then "EMSGSIZE Path-MTU=" ++ toString e.ee_info ++ "|"
  else if e.ee_errno = ECONNREFUSED then "ECONNREFUSED|"
  else if e.ee_errno = EPROTO then "EPROTO|"
  else if e.ee_errno = EHOSTUNREACH then "EHOSTUNREACH|"
  else if e.ee_errno = ENETUNREACH then "ENETUNREACH|"
  else if e.ee_errno = EACCES then "EACCES|"
  else "UNKNOWN|"

/-- The `*mtu` update of the `switch (e->ee_errno)`: only the `EMSGSIZE`
case stores `e->ee_info`. -/
def ee_errno_mtu (e : SockExtendedErr) (mtu : Int) : Int :=
  if e.ee_errno = EMSGSIZE then e.ee_info else mtu

/-- Modelled from the spec: `buf_rmtail(&buf, c)` of `buffer.c` (not under
`src/`) removes one trailing occurrence of `c`, so the produced trace is
pipe-delimited without a trailing delimiter. -/
def buf_rmtail (s : String) (c : Char) : String :=
  match s.data.getLast? with
  | some d => if d = c then String.mk s.data.dropLast else s
  | none => s

/-- The `while (true)` drain loop of `format_extended_socket_error`: the
error queue is modelled as the list of entries `recvmsg(..., MSG_ERRQUEUE)`
delivers before failing; each entry is its list of control messages. An
entry without an `IP_RECVERR` message reaches the `e == NULL` branch: it
appends `NO-INFO|` and exits; otherwise the errno classification is
appended, `EMSGSIZE` updates the mtu, and the loop continues. -/
def format_ext_loop : List (List Cmsg) → String → Int → String × Int
  | [], out, mtu => (out, mtu)
  | entry :: rest, out, mtu =>
    let scanned := scan_cmsgs entry
    let out := out ++ scanned.1
    match scanned.2 with
    | none => (out ++ "NO-INFO|", mtu)
    | some e => format_ext_loop rest (out ++ ee_errno_tag e) (ee_errno_mtu e mtu)

/-- `format_extended_socket_error` (mtu.c): `*mtu` starts at 0, the queue is
drained, and the trailing delimiter is removed from the trace. Returns the
pair (description, `*mtu`). -/
def format_extended_socket_error (errqueue : List (List Cmsg)) : String × Int :=
  let result := format_ext_loop errqueue "" 0
  (buf_rmtail result.1 '|', result.2)

/-- Whether an entry carries structured error metadata (an `IP_RECVERR`
control message). -/
def has_recverr (entry : List Cmsg) : Bool :=
  (scan_cmsgs entry).2.isSome

/-- The trace contribution of a single entry: its `CMSG=` elements followed
by its classification (or `NO-INFO|` when it has no structured metadata). -/
def entry_classification (entry : List Cmsg) : String :=
  (scan_cmsgs entry).1
    ++ match (scan_cmsgs entry).2 with
       | none => "NO-INFO|"
       | some e => ee_errno_tag e

/-- The `ee_info` values of the entries classified as `EMSGSIZE`, in receipt
order. -/
def emsgsize_infos (q : List (List Cmsg)) : List Int :=
  q.filterMap fun entry =>
    match (scan_cmsgs entry).2 with
    | some e => if e.ee_errno = EMSGSIZE then some e.ee_info else none
    | none => none

/-- Concatenation of the per-entry trace pieces, in receipt order. -/
def trace_concat : List String → String
  | [] => ""
  | s :: rest => s ++ trace_concat rest

/-! ## Helper lemmas -/

lemma constrain_int_mem (x lo hi : Int) (h : lo ≤ hi) :
    lo ≤ constrain_int x lo hi ∧ constrain_int x lo hi ≤ hi := by
  unfold constrain_int
  split_ifs <;> omega

lemma getLast?_getD_cons (i m : Int) (l : List Int) :
    (List.getLast? (i :: l)).getD m = (List.getLast? l).getD i := by
  cases l with
  | nil => rfl
  | cons b l =>
    rw [List.getLast?_cons_cons]
    cases h : List.getLast? (b :: l) with
    | none => exact absurd h (by simp [List.getLast?_eq_none_iff])
    | some x => rfl

/-! ## Claim theorems -/

/-- C5: for every frame and every src, the sum `extra_frame + extra_tun` is
the same before and after `frame_subtract_extra(frame, src)`, for any value
of `src.extra_frame`. -/
theorem frame_subtract_extra_conserves (frame src : Frame) :
    (frame_subtract_extra frame src).extra_frame
      + (frame_subtract_extra frame src).extra_tun
      = frame.extra_frame + frame.extra_tun := by
  simp only [frame_subtract_extra]
  ring

/-- C10: `frame_subtract_extra(frame, src)` touches only `extra_frame` and
`extra_tun`: `link_mtu`, `link_mtu_dynamic`, `extra_buffer` and `extra_link`
are unchanged, and the result reads nothing of `src` except `src.extra_frame`
(the C source takes `src` as a `const` pointer, so `src` itself is never
written; the embedding is a pure function of the two records). -/
theorem frame_subtract_extra_only_extras (frame src : Frame) :
    (frame_subtract_extra frame src).link_mtu = frame.link_mtu
    ∧ (frame_subtract_extra frame src).link_mtu_dynamic = frame.link_mtu_dynamic
    ∧ (frame_subtract_extra frame src).extra_buffer = frame.extra_buffer
    ∧ (frame_subtract_extra frame src).extra_link = frame.extra_link
    ∧ (∀ src2 : Frame, src2.extra_frame = src.extra_frame →
        frame_subtract_extra frame src2 = frame_subtract_extra frame src) := by
  refine ⟨rfl, rfl, rfl, rfl, fun src2 h => ?_⟩
  simp only [frame_subtract_extra, h]

/-- C10 witness: the theorem applied at a concrete frame and source. -/
theorem frame_subtract_extra_only_extras_witness :
    (frame_subtract_extra ⟨1500, 1400, 30, 4, 32, 0⟩ ⟨0, 0, 4, 0, 0, 0⟩).link_mtu = 1500
    ∧ frame_subtract_extra ⟨1500, 1400, 30, 4, 32, 0⟩ ⟨9, 9, 4, 9, 9, 9⟩
        = frame_subtract_extra ⟨1500, 1400, 30, 4, 32, 0⟩ ⟨0, 0, 4, 0, 0, 0⟩ :=
  ⟨(frame_subtract_extra_only_extras ⟨1500, 1400, 30, 4, 32, 0⟩ ⟨0, 0, 4, 0, 0, 0⟩).1,
   (frame_subtract_extra_only_extras ⟨1500, 1400, 30, 4, 32, 0⟩ ⟨0, 0, 4, 0, 0, 0⟩).2.2.2.2
     ⟨9, 9, 4, 9, 9, 9⟩ (by decide)⟩

/-- C1 counterexample: the claim fails as stated, in two independent ways.
(1) With an empty target interval (a frame whose `link_mtu` is below
`EXPANDED_SIZE_MIN`), the stored value is the floor 100, which does not lie
in `[EXPANDED_SIZE_MIN, EXPANDED_SIZE] = [100, 0]` (nothing does).
(2) With `SET_MTU_UPPER_BOUND` and a request at or above the current
dynamic value, the stale current value 5000 is kept unchanged even though
it lies above the ceiling `EXPANDED_SIZE = 1500`. -/
theorem frame_set_mtu_dynamic_interval_cex :
    (frame_set_mtu_dynamic ⟨0, 0, 0, 0, 0, 0⟩ 0 ⟨false, false⟩
        = some ⟨0, 100, 0, 0, 0, 0⟩
      ∧ ¬ ((⟨0, 100, 0, 0, 0, 0⟩ : Frame).link_mtu_dynamic
            ≤ EXPANDED_SIZE ⟨0, 100, 0, 0, 0, 0⟩))
    ∧ (frame_set_mtu_dynamic ⟨1500, 5000, 0, 0, 0, 0⟩ 6000 ⟨false, true⟩
        = some ⟨1500, 5000, 0, 0, 0, 0⟩
      ∧ ¬ ((⟨1500, 5000, 0, 0, 0, 0⟩ : Frame).link_mtu_dynamic
            ≤ EXPANDED_SIZE ⟨1500, 5000, 0, 0, 0, 0⟩)) := by
  refine ⟨⟨?_, by decide⟩, ⟨?_, by decide⟩⟩ <;> decide

/-- C1 (amended): for every frame whose clamping interval is nonempty
(`EXPANDED_SIZE_MIN ≤ EXPANDED_SIZE`) and, when `SET_MTU_UPPER_BOUND` is
set, whose current dynamic value already lies in that interval, every call
of `frame_set_mtu_dynamic` with any requested `mtu ≥ 0` and any flag
combination leaves `link_mtu_dynamic` in
`[EXPANDED_SIZE_MIN(frame), EXPANDED_SIZE(frame)]`, no matter how far
outside that interval the requested mtu was. -/
theorem frame_set_mtu_dynamic_in_interval (frame : Frame) (mtu : Int)
    (flags : SetMtuFlags) (f : Frame)
    (hmtu : 0 ≤ mtu)
    (hne : EXPANDED_SIZE_MIN frame ≤ EXPANDED_SIZE frame)
    (hub : flags.set_mtu_upper_bound = true →
      EXPANDED_SIZE_MIN frame ≤ frame.link_mtu_dynamic
        ∧ frame.link_mtu_dynamic ≤ EXPANDED_SIZE frame)
    (h : frame_set_mtu_dynamic frame mtu flags = some f) :
    EXPANDED_SIZE_MIN f ≤ f.link_mtu_dynamic
      ∧ f.link_mtu_dynamic ≤ EXPANDED_SIZE f := by
  simp only [frame_set_mtu_dynamic] at h
  rw [if_neg (by omega)] at h
  set m := (if flags.set_mtu_tun then mtu + TUN_LINK_DELTA frame else mtu) with hm
  split at h
  · rw [Option.some.injEq] at h
    subst h
    have hmem := constrain_int_mem m
      (EXPANDED_SIZE_MIN frame) (EXPANDED_SIZE frame) hne
    simpa [EXPANDED_SIZE, EXPANDED_SIZE_MIN, TUN_LINK_DELTA] using hmem
  · rw [Option.some.injEq] at h
    subst h
    rename_i hcond
    have hu : flags.set_mtu_upper_bound = true := by
      by_contra hb
      simp only [Bool.not_eq_true] at hb
      exact hcond (Or.inl (by simp [hb]))
    exact hub hu

/-- C1 witness: the amended theorem applied at a concrete frame with a
request (4000) far above the ceiling; the stored value is the ceiling. -/
theorem frame_set_mtu_dynamic_in_interval_witness :
    (0 : Int) ≤ 4000
    ∧ EXPANDED_SIZE_MIN (⟨1500, 1400, 20, 0, 10, 0⟩ : Frame)
        ≤ EXPANDED_SIZE ⟨1500, 1400, 20, 0, 10, 0⟩
    ∧ EXPANDED_SIZE_MIN (⟨1500, 1500, 20, 0, 10, 0⟩ : Frame)
        ≤ (⟨1500, 1500, 20, 0, 10, 0⟩ : Frame).link_mtu_dynamic
    ∧ (⟨1500, 1500, 20, 0, 10, 0⟩ : Frame).link_mtu_dynamic
        ≤ EXPANDED_SIZE ⟨1500, 1500, 20, 0, 10, 0⟩ :=
  ⟨by decide, by decide,
    frame_set_mtu_dynamic_in_interval ⟨1500, 1400, 20, 0, 10, 0⟩ 4000
      ⟨false, false⟩ ⟨1500, 1500, 20, 0, 10, 0⟩ (by decide) (by decide)
      (fun hcontra => by simp at hcontra) (by decide)⟩

/-- C2: with `SET_MTU_UPPER_BOUND` and a (delta-adjusted) request at or
above the current dynamic value `D`, `link_mtu_dynamic` stays `D`; with a
request below `D` it becomes the clamp of the adjusted request into
`[EXPANDED_SIZE_MIN, EXPANDED_SIZE]`; without the flag the clamped value is
stored unconditionally. -/
theorem frame_set_mtu_dynamic_update_rule (frame : Frame) (mtu : Int)
    (flags : SetMtuFlags) (f : Frame)
    (hmtu : 0 ≤ mtu)
    (h : frame_set_mtu_dynamic frame mtu flags = some f) :
    (flags.set_mtu_upper_bound = true →
      frame.link_mtu_dynamic
          ≤ (if flags.set_mtu_tun then mtu + TUN_LINK_DELTA frame else mtu) →
        f.link_mtu_dynamic = frame.link_mtu_dynamic)
    ∧ (flags.set_mtu_upper_bound = true →
      (if flags.set_mtu_tun then mtu + TUN_LINK_DELTA frame else mtu)
          < frame.link_mtu_dynamic →
        f.link_mtu_dynamic
          = constrain_int
              (if flags.set_mtu_tun then mtu + TUN_LINK_DELTA frame else mtu)
              (EXPANDED_SIZE_MIN frame) (EXPANDED_SIZE frame))
    ∧ (flags.set_mtu_upper_bound = false →
        f.link_mtu_dynamic
          = constrain_int
              (if flags.set_mtu_tun then mtu + TUN_LINK_DELTA frame else mtu)
              (EXPANDED_SIZE_MIN frame) (EXPANDED_SIZE frame)) := by
  simp only [frame_set_mtu_dynamic] at h
  rw [if_neg (by omega)] at h
  set m := (if flags.set_mtu_tun then mtu + TUN_LINK_DELTA frame else mtu) with hm
  refine ⟨fun hu hge => ?_, fun hu hlt => ?_, fun hu => ?_⟩
  · split at h
    · rename_i hcond
      rcases hcond with hc | hc
      · exact absurd hu hc
      · omega
    · rw [Option.some.injEq] at h
      subst h
      rfl
  · split at h
    · rw [Option.some.injEq] at h
      subst h
      rfl
    · rename_i hcond
      exact absurd (Or.inr hlt) hcond
  · split at h
    · rw [Option.some.injEq] at h
      subst h
      rfl
    · rename_i hcond
      exact absurd (Or.inl (by simp [hu])) hcond

/-- C2 witness: the theorem applied at a concrete frame, with the
upper-bound flag and a request above the current dynamic value. -/
theorem frame_set_mtu_dynamic_update_rule_witness :
    (0 : Int) ≤ 1600
    ∧ ((⟨1500, 1400, 20, 0, 10, 0⟩ : Frame).link_mtu_dynamic ≤ 1600 →
        (⟨1500, 1400, 20, 0, 10, 0⟩ : Frame).link_mtu_dynamic = 1400) :=
  ⟨by decide,
    fun hge =>
      (frame_set_mtu_dynamic_update_rule ⟨1500, 1400, 20, 0, 10, 0⟩ 1600
        ⟨false, true⟩ ⟨1500, 1400, 20, 0, 10, 0⟩ (by decide) (by decide)).1
        (by decide) (by exact hge)⟩

/-- C3: whenever `frame_finalize` succeeds, `link_mtu` is
`tun_mtu + TUN_LINK_DELTA(frame)` when the tun MTU was given and the given
`link_mtu` otherwise, and `link_mtu_dynamic` equals `link_mtu` immediately
afterwards. -/
theorem frame_finalize_success (frame : Frame) (link_mtu_defined : Bool)
    (link_mtu : Int) (tun_mtu_defined : Bool) (tun_mtu : Int) (f : Frame)
    (h : frame_finalize frame link_mtu_defined link_mtu tun_mtu_defined tun_mtu
          = .ok f) :
    (tun_mtu_defined = true → f.link_mtu = tun_mtu + TUN_LINK_DELTA frame)
    ∧ (tun_mtu_defined = false → f.link_mtu = link_mtu)
    ∧ f.link_mtu_dynamic = f.link_mtu := by
  cases tun_mtu_defined <;> cases link_mtu_defined <;>
    simp only [frame_finalize, finalize_check, Bool.not_eq_true, if_true,
      if_false, Bool.true_eq_false, Bool.false_eq_true, ite_true, ite_false,
      not_false_eq_true, not_true_eq_false] at h ⊢
  · exact absurd h (by simp)
  · split at h
    · exact absurd h (by simp)
    · rw [Except.ok.injEq] at h
      subst h
      exact ⟨fun hc => hc.elim, fun _ => rfl, rfl⟩
  · split at h
    · exact absurd h (by simp)
    · rw [Except.ok.injEq] at h
      subst h
      exact ⟨fun _ => rfl, fun hc => hc.elim, rfl⟩
  · exact absurd h (by simp)

/-- C3 witness: the theorem applied to a successful tun-MTU finalization. -/
theorem frame_finalize_success_witness :
    (true = true →
      (⟨1407, 1407, 3, 0, 4, 0⟩ : Frame).link_mtu
        = 1400 + TUN_LINK_DELTA ⟨0, 0, 3, 0, 4, 0⟩)
    ∧ (true = false → (⟨1407, 1407, 3, 0, 4, 0⟩ : Frame).link_mtu = 0)
    ∧ (⟨1407, 1407, 3, 0, 4, 0⟩ : Frame).link_mtu_dynamic
        = (⟨1407, 1407, 3, 0, 4, 0⟩ : Frame).link_mtu :=
  frame_finalize_success ⟨0, 0, 3, 0, 4, 0⟩ false 0 true 1400
    ⟨1407, 1407, 3, 0, 4, 0⟩ (by rfl)

/-- C4: `frame_finalize` fails fatally exactly when both or neither MTU is
defined, or when the tun MTU derived from the assigned `link_mtu` is below
`TUN_MTU_MIN`; in the latter case the reported error names the offending
derived value and the minimum. -/
theorem frame_finalize_fatal_iff (frame : Frame) (link_mtu_defined : Bool)
    (link_mtu : Int) (tun_mtu_defined : Bool) (tun_mtu : Int) :
    (((frame_finalize frame link_mtu_defined link_mtu tun_mtu_defined tun_mtu).isOk
        = false) ↔
      (link_mtu_defined = tun_mtu_defined
        ∨ TUN_MTU_SIZE { frame with
            link_mtu := if tun_mtu_defined then tun_mtu + TUN_LINK_DELTA frame
              else link_mtu } < TUN_MTU_MIN))
    ∧ (link_mtu_defined = tun_mtu_defined →
        frame_finalize frame link_mtu_defined link_mtu tun_mtu_defined tun_mtu
          = .error .assertFailure)
    ∧ (link_mtu_defined ≠ tun_mtu_defined →
      TUN_MTU_SIZE { frame with
          link_mtu := if tun_mtu_defined then tun_mtu + TUN_LINK_DELTA frame
            else link_mtu } < TUN_MTU_MIN →
        frame_finalize frame link_mtu_defined link_mtu tun_mtu_defined tun_mtu
          = .error (.mtuTooSmall
              (TUN_MTU_SIZE { frame with
                link_mtu := if tun_mtu_defined then tun_mtu + TUN_LINK_DELTA frame
                  else link_mtu })
              TUN_MTU_MIN)) := by
  have hcheck : ∀ g : Frame,
      ((finalize_check g).isOk = false ↔ TUN_MTU_SIZE g < TUN_MTU_MIN)
      ∧ (TUN_MTU_SIZE g < TUN_MTU_MIN →
          finalize_check g
            = .error (.mtuTooSmall (TUN_MTU_SIZE g) TUN_MTU_MIN)) := by
    intro g
    constructor
    · unfold finalize_check
      split <;> simp_all [Except.isOk, Except.toBool]
    · intro hg
      unfold finalize_check
      rw [if_pos hg]
  cases tun_mtu_defined <;> cases link_mtu_defined
  · refine ⟨by simp [frame_finalize, Except.isOk, Except.toBool],
      fun _ => by simp [frame_finalize], fun hne => absurd rfl hne⟩
  · refine ⟨?_, fun hc => absurd hc (by simp), fun _ hlt => ?_⟩
    · simpa [frame_finalize] using (hcheck { frame with link_mtu := link_mtu }).1
    · simp only [Bool.false_eq_true, if_false] at hlt ⊢
      simpa [frame_finalize] using
        (hcheck { frame with link_mtu := link_mtu }).2 hlt
  · refine ⟨?_, fun hc => absurd hc (by simp), fun _ hlt => ?_⟩
    · simpa [frame_finalize] using
        (hcheck { frame with link_mtu := tun_mtu + TUN_LINK_DELTA frame }).1
    · simp only [if_true] at hlt ⊢
      simpa [frame_finalize] using
        (hcheck { frame with link_mtu := tun_mtu + TUN_LINK_DELTA frame }).2 hlt
  · refine ⟨by simp [frame_finalize, Except.isOk, Except.toBool],
      fun _ => by simp [frame_finalize], fun hne => absurd rfl hne⟩

/-- C4 witness: the theorem applied at a frame and arguments where the
derived tun MTU (90) is below the minimum (100). -/
theorem frame_finalize_fatal_iff_witness :
    frame_finalize ⟨0, 0, 3, 0, 4, 0⟩ true 90 false 0
      = .error (.mtuTooSmall 83 100) :=
  (frame_finalize_fatal_iff ⟨0, 0, 3, 0, 4, 0⟩ true 90 false 0).2.2
    (by decide) (by decide)

/-- Refinement definition following the spec's words: the individually
computed proxy contribution, "proxy on a datagram transport = 10 bytes". -/
def proxy_contribution_spec (o : Options) : Int :=
  if o.ce.socks_proxy_server && proto_is_udp o.ce.proto then 10 else 0

/-- Refinement definition following the spec's words: the individually
computed stream-framing contribution, "stream transport = 2 bytes". -/
def stream_contribution_spec (o : Options) : Int :=
  if proto_is_tcp o.ce.proto then 2 else 0

/-- Refinement definition following the spec's words: the individually
computed opcode/peer-id contribution, "secure-session with peer-id =
4 bytes" (a bare opcode costs 1). -/
def opcode_contribution_spec (o : Options) : Int :=
  if o.tls_server || o.tls_client then (if o.use_peer_id then 4 else 1) else 0

/-- Refinement definition following the spec's words: the separately
computed crypto overhead, delegated to the external crypto collaborator
with the replay flag and the long-form rule (long form whenever
secure-session mode is off or the cipher runs in a stream-like mode). -/
def crypto_contribution_spec (env : CryptoEnv) (kt : KeyType) (o : Options)
    (payload_size : Int) (occ : Bool) : Int :=
  env.calculate_crypto_overhead kt o.replay
    (!(o.tls_server || o.tls_client) || env.cipher_kt_mode_ofb_cfb kt.cipher)
    payload_size occ

/-- C6: the protocol header size is additive and order-independent — it is
exactly the sum of the individually computed proxy, stream-framing and
opcode/peer-id contributions plus the separately computed crypto overhead,
in any order of summation; with proxy, secure-session and peer-id all
enabled this gives 10 + 4 + crypto on a datagram transport and 2 + 4 +
crypto on a stream transport (where the proxy contributes nothing). -/
theorem protocol_header_size_additive (env : CryptoEnv) (kt : KeyType)
    (o : Options) (payload_size : Int) (occ : Bool) :
    (frame_calculate_protocol_header_size env kt o payload_size occ
      = proxy_contribution_spec o + stream_contribution_spec o
        + opcode_contribution_spec o
        + crypto_contribution_spec env kt o payload_size occ)
    ∧ (frame_calculate_protocol_header_size env kt o payload_size occ
      = crypto_contribution_spec env kt o payload_size occ
        + opcode_contribution_spec o + proxy_contribution_spec o
        + stream_contribution_spec o)
    ∧ (o.ce.socks_proxy_server = true → (o.tls_server || o.tls_client) = true →
       o.use_peer_id = true → proto_is_udp o.ce.proto = true →
        frame_calculate_protocol_header_size env kt o payload_size occ
          = 10 + 4 + crypto_contribution_spec env kt o payload_size occ)
    ∧ (o.ce.socks_proxy_server = true → (o.tls_server || o.tls_client) = true →
       o.use_peer_id = true → proto_is_tcp o.ce.proto = true →
        frame_calculate_protocol_header_size env kt o payload_size occ
          = 2 + 4 + crypto_contribution_spec env kt o payload_size occ) := by
  have hsum : frame_calculate_protocol_header_size env kt o payload_size occ
      = proxy_contribution_spec o + stream_contribution_spec o
        + opcode_contribution_spec o
        + crypto_contribution_spec env kt o payload_size occ := by
    simp only [frame_calculate_protocol_header_size, proxy_contribution_spec,
      stream_contribution_spec, opcode_contribution_spec,
      crypto_contribution_spec]
  have hexcl : proto_is_udp o.ce.proto = true → proto_is_tcp o.ce.proto = false := by
    intro hu
    simp only [proto_is_udp, decide_eq_true_eq] at hu
    simp only [proto_is_tcp, hu]
    decide
  refine ⟨hsum, by rw [hsum]; ring, fun hp ht hid hu => ?_, fun hp ht hid hs => ?_⟩
  · rw [hsum]
    simp only [proxy_contribution_spec, stream_contribution_spec,
      opcode_contribution_spec, hp, ht, hid, hu, hexcl hu, Bool.and_self,
      if_true, if_false, Bool.false_eq_true, ite_true, ite_false]
    ring
  · have hnu : proto_is_udp o.ce.proto = false := by
      by_contra hb
      simp only [Bool.not_eq_false] at hb
      rw [hexcl hb] at hs
      exact absurd hs (by simp)
    rw [hsum]
    simp only [proxy_contribution_spec, stream_contribution_spec,
      opcode_contribution_spec, hp, ht, hid, hs, hnu, Bool.and_false,
      if_true, if_false, Bool.false_eq_true, ite_true, ite_false]
    ring

/-- C6 witness: the theorem applied at a concrete datagram configuration
with proxy, secure session and peer-id enabled, and a concrete crypto
environment contributing 20 bytes. -/
theorem protocol_header_size_additive_witness :
    frame_calculate_protocol_header_size
        ⟨fun _ => false, fun _ _ _ _ _ => 20⟩ ⟨"AES-256-GCM", "SHA256"⟩
        { tls_server := true, tls_client := false, shared_secret_file := false,
          use_peer_id := true, replay := true, ciphername := "AES-256-GCM",
          authname := "SHA256", comp_alg := .undef,
          ce := ⟨true, .udp, 1500, 0⟩ } 1500 false
      = 10 + 4 + crypto_contribution_spec
          ⟨fun _ => false, fun _ _ _ _ _ => 20⟩ ⟨"AES-256-GCM", "SHA256"⟩
          { tls_server := true, tls_client := false, shared_secret_file := false,
            use_peer_id := true, replay := true, ciphername := "AES-256-GCM",
            authname := "SHA256", comp_alg := .undef,
            ce := ⟨true, .udp, 1500, 0⟩ } 1500 false :=
  (protocol_header_size_additive ⟨fun _ => false, fun _ _ _ _ _ => 20⟩
      ⟨"AES-256-GCM", "SHA256"⟩
      { tls_server := true, tls_client := false, shared_secret_file := false,
        use_peer_id := true, replay := true, ciphername := "AES-256-GCM",
        authname := "SHA256", comp_alg := .undef,
        ce := ⟨true, .udp, 1500, 0⟩ } 1500 false).2.2.1
    rfl rfl rfl rfl

/-- C7: with the legacy cipher identifier "BF-CBC", the advertised link MTU
equals the computation with the "none" cipher descriptor plus the fixed
manual 16-byte (64-bit block + 64-bit IV) addition, equivalently the
payload size plus 16 plus the protocol header computed with the descriptor
`("none", authname)` — authentication overhead still flows through the
normal protocol-header path; and without TLS mode or a pre-shared secret
the result is the plain payload size with no crypto overhead. -/
theorem calc_options_string_link_mtu_spec (env : CryptoEnv) (frame : Frame)
    (o : Options)
    (hbf : o.ciphername = "BF-CBC")
    (hsec : o.tls_client = true ∨ o.tls_server = true
      ∨ o.shared_secret_file = true) :
    (calc_options_string_link_mtu env o frame
      = calc_options_string_link_mtu env { o with ciphername := "none" } frame
        + 16)
    ∧ (calc_options_string_link_mtu env o frame
      = frame_calculate_payload_size frame o + 16
        + frame_calculate_protocol_header_size env
            (init_key_type "none" o.authname) o 0 true)
    ∧ (∀ o2 : Options, o2.tls_client = false → o2.tls_server = false →
        o2.shared_secret_file = false →
        calc_options_string_link_mtu env o2 frame
          = frame_calculate_payload_size frame o2) := by
  have hcond : (!o.tls_client && !o.tls_server && !o.shared_secret_file) = false := by
    rcases hsec with h | h | h <;> simp [h]
  have hcond2 : (!Options.tls_client { o with ciphername := "none" }
      && !Options.tls_server { o with ciphername := "none" }
      && !Options.shared_secret_file { o with ciphername := "none" }) = false := hcond
  have hpay : frame_calculate_payload_size frame { o with ciphername := "none" }
      = frame_calculate_payload_size frame o := by
    simp [frame_calculate_payload_size, frame_calculate_payload_overhead]
  have hhdr : ∀ kt : KeyType,
      frame_calculate_protocol_header_size env kt { o with ciphername := "none" } 0 true
        = frame_calculate_protocol_header_size env kt o 0 true := by
    intro kt
    simp [frame_calculate_protocol_header_size]
  have hbfside : calc_options_string_link_mtu env o frame
      = frame_calculate_payload_size frame o + 16
        + frame_calculate_protocol_header_size env
            (init_key_type "none" o.authname) o 0 true := by
    simp only [calc_options_string_link_mtu, hcond, Bool.false_eq_true,
      if_false, ite_false, hbf, eq_self_iff_true, ite_true, if_true]
    norm_num
    ring
  have hnoneside : calc_options_string_link_mtu env { o with ciphername := "none" } frame
      = frame_calculate_payload_size frame o
        + frame_calculate_protocol_header_size env
            (init_key_type "none" o.authname) o 0 true := by
    simp only [calc_options_string_link_mtu, hcond2, Bool.false_eq_true,
      if_false, ite_false]
    rw [if_neg (by decide), if_neg (by decide)]
    rw [hpay, hhdr]
    ring
  refine ⟨?_, hbfside, fun o2 h1 h2 h3 => ?_⟩
  · rw [hbfside, hnoneside]
    ring
  · simp only [calc_options_string_link_mtu, h1, h2, h3, Bool.not_false,
      Bool.and_self, if_true, ite_true]

/-- C7 witness: the theorem applied at a concrete TLS-server configuration
advertising "BF-CBC" with SHA1 auth, over a crypto environment charging a
constant 7 bytes. -/
theorem calc_options_string_link_mtu_spec_witness :
    calc_options_string_link_mtu ⟨fun _ => false, fun _ _ _ _ _ => 7⟩
        { tls_server := true, tls_client := false, shared_secret_file := false,
          use_peer_id := false, replay := true, ciphername := "BF-CBC",
          authname := "SHA1", comp_alg := .undef,
          ce := ⟨false, .udp, 1500, 0⟩ } ⟨0, 0, 0, 0, 0, 0⟩
      = calc_options_string_link_mtu ⟨fun _ => false, fun _ _ _ _ _ => 7⟩
          { tls_server := true, tls_client := false, shared_secret_file := false,
            use_peer_id := false, replay := true, ciphername := "none",
            authname := "SHA1", comp_alg := .undef,
            ce := ⟨false, .udp, 1500, 0⟩ } ⟨0, 0, 0, 0, 0, 0⟩ + 16 :=
  (calc_options_string_link_mtu_spec ⟨fun _ => false, fun _ _ _ _ _ => 7⟩
      ⟨0, 0, 0, 0, 0, 0⟩
      { tls_server := true, tls_client := false, shared_secret_file := false,
        use_peer_id := false, replay := true, ciphername := "BF-CBC",
        authname := "SHA1", comp_alg := .undef,
        ce := ⟨false, .udp, 1500, 0⟩ } rfl (Or.inr (Or.inl rfl))).1

/-- C8: `translate_mtu_discover_type_name` maps exactly "yes", "maybe" and
"no" to the three distinct stable values `IP_PMTUDISC_DO`,
`IP_PMTUDISC_WANT` and `IP_PMTUDISC_DONT`, and every other input fails
fatally with the diagnostic that enumerates exactly those three valid
options, never producing a usable value. -/
theorem translate_mtu_discover_type_name_spec :
    translate_mtu_discover_type_name "yes" = .ok IP_PMTUDISC_DO
    ∧ translate_mtu_discover_type_name "maybe" = .ok IP_PMTUDISC_WANT
    ∧ translate_mtu_discover_type_name "no" = .ok IP_PMTUDISC_DONT
    ∧ IP_PMTUDISC_DO ≠ IP_PMTUDISC_WANT
    ∧ IP_PMTUDISC_WANT ≠ IP_PMTUDISC_DONT
    ∧ IP_PMTUDISC_DO ≠ IP_PMTUDISC_DONT
    ∧ ∀ name : String, name ≠ "yes" → name ≠ "maybe" → name ≠ "no" →
        translate_mtu_discover_type_name name
          = .error ("invalid --mtu-disc type: '" ++ name
              ++ "' -- valid types are 'yes', 'maybe', or 'no'") := by
  refine ⟨rfl, rfl, rfl, by decide, by decide, by decide,
    fun name h1 h2 h3 => ?_⟩
  simp only [translate_mtu_discover_type_name, mtu_disc_invalid_msg,
    if_neg h1, if_neg h2, if_neg h3]

/-- C8 witness: the theorem applied to the invalid mode name "perhaps". -/
theorem translate_mtu_discover_type_name_spec_witness :
    translate_mtu_discover_type_name "perhaps"
      = .error ("invalid --mtu-disc type: '" ++ "perhaps"
          ++ "' -- valid types are 'yes', 'maybe', or 'no'") :=
  translate_mtu_discover_type_name_spec.2.2.2.2.2.2 "perhaps"
    (by decide) (by decide) (by decide)

lemma format_ext_loop_wf (q : List (List Cmsg))
    (hwf : ∀ e ∈ q, has_recverr e = true) :
    ∀ out mtu, format_ext_loop q out mtu
      = (out ++ trace_concat (q.map entry_classification),
         (List.getLast? (emsgsize_infos q)).getD mtu) := by
  induction q with
  | nil =>
    intro out mtu
    simp [format_ext_loop, trace_concat, emsgsize_infos, String.append_empty]
  | cons entry rest ih =>
    intro out mtu
    have hre : has_recverr entry = true := hwf entry (by simp)
    have hwrest : ∀ e ∈ rest, has_recverr e = true :=
      fun e he => hwf e (by simp [he])
    obtain ⟨err, herr⟩ : ∃ err, (scan_cmsgs entry).2 = some err := by
      unfold has_recverr at hre
      exact Option.isSome_iff_exists.1 hre
    simp only [format_ext_loop, herr]
    rw [ih hwrest]
    rw [Prod.mk.injEq]
    constructor
    · simp only [List.map_cons, trace_concat, entry_classification, herr,
        String.append_assoc]
    · simp only [emsgsize_infos, List.filterMap_cons, herr, ee_errno_mtu]
      by_cases hm : err.ee_errno = EMSGSIZE
      · simp only [hm, ite_true, if_true]
        rw [getLast?_getD_cons]
      · simp only [hm, ite_false, if_false]

lemma format_ext_loop_noinfo (pre : List (List Cmsg))
    (hwf : ∀ e ∈ pre, has_recverr e = true)
    (entry : List Cmsg) (hno : has_recverr entry = false)
    (rest : List (List Cmsg)) :
    ∀ out mtu, format_ext_loop (pre ++ entry :: rest) out mtu
      = (out ++ trace_concat (pre.map entry_classification)
           ++ entry_classification entry,
         (List.getLast? (emsgsize_infos pre)).getD mtu) := by
  induction pre with
  | nil =>
    intro out mtu
    have hnone : (scan_cmsgs entry).2 = none := by
      unfold has_recverr at hno
      exact Option.not_isSome_iff_eq_none.1 (by simp [hno])
    simp only [List.nil_append, format_ext_loop, hnone, List.map_nil,
      trace_concat, emsgsize_infos, List.filterMap_nil, List.getLast?_nil,
      Option.getD_none, entry_classification, String.append_empty,
      String.append_assoc]
  | cons e pre ih =>
    intro out mtu
    have hre : has_recverr e = true := hwf e (by simp)
    have hwrest : ∀ x ∈ pre, has_recverr x = true :=
      fun x hx => hwf x (by simp [hx])
    obtain ⟨err, herr⟩ : ∃ err, (scan_cmsgs e).2 = some err := by
      unfold has_recverr at hre
      exact Option.isSome_iff_exists.1 hre
    simp only [List.cons_append, List.append_eq, format_ext_loop, herr]
    rw [ih hwrest]
    rw [Prod.mk.injEq]
    constructor
    · simp only [List.map_cons, trace_concat, entry_classification, herr,
        String.append_assoc]
    · simp only [emsgsize_infos, List.filterMap_cons, herr, ee_errno_mtu]
      by_cases hm : err.ee_errno = EMSGSIZE
      · simp only [hm, ite_true, if_true]
        rw [getLast?_getD_cons]
      · simp only [hm, ite_false, if_false]

/-- C9: for every drained error queue, the trace is the concatenation, in
receipt order, of each entry's pipe-terminated classification (with the
final delimiter removed), and the output mtu is the `ee_info` of the last
entry classified as `EMSGSIZE`, or 0 if none; an entry carrying no
structured error metadata terminates the drain immediately — the entries
after it are ignored — contributing a `NO-INFO` trace element and no
discovered MTU of its own (the mtu is still 0 unless an earlier entry was
classified `EMSGSIZE`). -/
theorem format_extended_socket_error_spec :
    (∀ errqueue : List (List Cmsg),
      (∀ e ∈ errqueue, has_recverr e = true) →
      format_extended_socket_error errqueue
        = (buf_rmtail (trace_concat (errqueue.map entry_classification)) '|',
           (List.getLast? (emsgsize_infos errqueue)).getD 0))
    ∧ (∀ pre entry rest, (∀ e ∈ pre, has_recverr e = true) →
        has_recverr entry = false →
      format_extended_socket_error (pre ++ entry :: rest)
        = (buf_rmtail (trace_concat (pre.map entry_classification)
             ++ entry_classification entry) '|',
           (List.getLast? (emsgsize_infos pre)).getD 0)) := by
  constructor
  · intro errqueue hwf
    unfold format_extended_socket_error
    rw [format_ext_loop_wf errqueue hwf "" 0, String.empty_append]
  · intro pre entry rest hwf hno
    unfold format_extended_socket_error
    rw [format_ext_loop_noinfo pre hwf entry hno rest "" 0, String.empty_append]

/-- C9 witness: the theorem applied to the spec's example queue
`[timeout, too-large(mtu=1400), host-unreachable]`: all three
classifications appear in order and the discovered MTU is 1400. -/
theorem format_extended_socket_error_spec_witness :
    format_extended_socket_error
        [[Cmsg.ip_recverr ⟨110, 0⟩], [Cmsg.ip_recverr ⟨90, 1400⟩],
         [Cmsg.ip_recverr ⟨113, 0⟩]]
      = ("ETIMEDOUT|EMSGSIZE Path-MTU=1400|EHOSTUNREACH", 1400) :=
  (format_extended_socket_error_spec.1
      [[Cmsg.ip_recverr ⟨110, 0⟩], [Cmsg.ip_recverr ⟨90, 1400⟩],
       [Cmsg.ip_recverr ⟨113, 0⟩]] (by decide)).trans (by decide)

end Mtu
